import Mathlib

/-!
Shallow embedding of `src/layer/convolution_transpose.py` (NiftyNet):
the transposed-convolution primitive `ConvTransLayer` and the composite
`ConvolutionalTransposeLayer`.  Tensors are modelled at the shape/graph
level: a tensor handle carries its static shape and a symbolic expression
recording which operators built it (the operators themselves live in the
external tensor framework and are delegated by design).
-/

namespace NiftyNet

/-- `SUPPORTED_PADDING = {'SAME', 'VALID'}` from the source file. -/
def SUPPORTED_PADDING : List String := ["SAME", "VALID"]

/-- Modelled from the spec: `look_up_operations` (imported from
`utilities.misc_common`, not under `src/`) checks membership of a string in a
supported set; the spec's invariant is that the padding mode must be a member
of SAME, VALID and that violating this fails fast with an error. -/
def look_up_operations (type_str : String) (supported : List String) :
    Except String String :=
  if type_str ∈ supported then .ok type_str
  else .error "unsupported option"

/-- Python's `str.upper()` as used on the padding argument (ASCII case
mapping), modelled directly on the character list so that it is executable. -/
def pyUpper (s : String) : String := ⟨s.data.map Char.toUpper⟩

/-- Modelled from the spec: `layer_util.infer_spatial_rank` (not under `src/`).
The spec says the input layout is batch × spatial dims × channels and that the
spatial rank is inferred from the input tensor's shape, so it is the tensor's
rank minus two (batch and channel), and must be positive. -/
def infer_spatial_rank (shape : List Int) : Except String Nat :=
  if 3 ≤ shape.length then .ok (shape.length - 2)
  else .error "input tensor spatial rank must be positive"

/-- A Python value accepted by `np.asarray(...).flatten()` at the layer's
constructor: either a scalar int or a per-axis sequence of ints. -/
inductive NpValue where
  | int (k : Int)
  | seq (l : List Int)
deriving DecidableEq, Repr

/-- `np.asarray(x).flatten()`: a scalar becomes a one-element vector, a
sequence stays as it is. -/
def NpValue.flatten : NpValue → List Int
  | .int k => [k]
  | .seq l => l

/-- `np.vstack(([kernel_size] * spatial_rank, n_output_chns, n_input_chns)).flatten()`
from `layer_op`.  `np.vstack` stacks the rows `[kernel_size] * spatial_rank`
(each a copy of the flattened kernel-size vector) together with the two
length-one rows for the channel counts; all rows must have the same length, so
the stack succeeds exactly when the flattened kernel size has length one, and
then flattening yields the scalar repeated `spatial_rank` times followed by the
two channel counts.  Otherwise `np.vstack` raises a `ValueError`. -/
def w_full_size (kernel_size : List Int) (spatial_rank : Nat)
    (n_output_chns n_input_chns : Int) : Except String (List Int) :=
  match kernel_size with
  | [k] => .ok (List.replicate spatial_rank k ++ [n_output_chns, n_input_chns])
  | _ => .error "np.vstack: all the input array dimensions must match"

/-- `np.vstack(([self.stride] * spatial_rank)).flatten()` from `layer_op`:
stacking `spatial_rank` copies of the flattened stride vector and flattening
row-major concatenates the copies. -/
def full_stride (stride : List Int) (spatial_rank : Nat) : List Int :=
  (List.replicate spatial_rank stride).flatten

/-- The value of a weight/bias initializer slot: the default weight
(He-style truncated normal) scheme, the default bias (zeros) scheme, or a
user-supplied value. -/
inductive InitValue (I : Type) where
  | default_w
  | default_b
  | given (v : I)
deriving DecidableEq, Repr

/-- A framework variable (learned parameter) as created by `tf.get_variable`:
its scope name, static shape, initializer and regularizer. -/
structure TFVariable (I R : Type) where
  name : String
  shape : List Int
  initializer : InitValue I
  regularizer : Option R
deriving DecidableEq, Repr

/-- Modelled from the spec: `tf.get_variable` belongs to the external tensor
framework.  It materializes a named parameter of the requested static shape
(every dimension must be nonnegative) with the given initializer and
regularizer. -/
def get_variable {I R : Type} (name : String) (shape : List Int)
    (initializer : InitValue I) (regularizer : Option R) :
    Except String (TFVariable I R) :=
  if shape.all (fun d => 0 ≤ d) then .ok ⟨name, shape, initializer, regularizer⟩
  else .error "variable shape dimensions must be nonnegative"

/-- Symbolic computation-graph expression recording which operators were
applied to the input tensor, with the configuration each operator received. -/
inductive GraphExpr (R : Type) where
  | input (shape : List Int)
  | convTrans (filterShape outputShape strides : List Int) (padding : String)
      (value : GraphExpr R)
  | biasAdd (value : GraphExpr R) (biasShape : List Int)
  | batchNorm (regularizer : Option R) (moving_decay eps : ℚ)
      (is_training : Option Bool) (value : GraphExpr R)
  | acti (func : String) (regularizer : Option R) (value : GraphExpr R)
  | dropout (keep_prob : ℚ) (value : GraphExpr R)
deriving DecidableEq, Repr

/-- A tensor handle: its static shape plus the symbolic expression that
produced it. -/
structure Tensor (R : Type) where
  shape : List Int
  expr : GraphExpr R
deriving DecidableEq, Repr

/-- Ceiling division of integers, for a positive divisor
(`-((-a).ediv b)` is exactly `⌈a / b⌉` when `0 < b`). -/
def ceilDivI (a b : Int) : Int := -((-a).ediv b)

/-- Modelled from the spec: the framework's standard deconvolution shape
relation ("the inverse-direction shape mapping of an ordinary convolution",
delegated to the framework).  The spatial dimension `d` of the value must
equal the forward-convolution output of the requested output dimension `o`
with kernel `k` and stride `s`: `⌈o / s⌉` for SAME and `⌈(o - k + 1) / s⌉`
for VALID. -/
def deconvDimOk (padding : String) (d o k s : Int) : Bool :=
  match padding with
  | "SAME" => d = ceilDivI o s
  | "VALID" => d = ceilDivI (o - k + 1) s
  | _ => false

/-- Modelled from the spec: `tf.nn.conv3d_transpose` is the external
framework's transposed-convolution operator.  It requires a rank-5 value, a
rank-5 filter `[k1, k2, k3, out_channels, in_channels]`, a rank-5 requested
output shape and a length-5 strides vector with `strides[0] = strides[4] = 1`
and positive spatial strides; the batch dimension and the channel dimensions
must be consistent, all dimensions positive, and each spatial dimension must
satisfy the standard deconvolution shape relation for the padding mode.  On
success the result tensor has exactly the requested output shape. -/
def conv3d_transpose (valueShape filterShape outputShape strides : List Int)
    (padding : String) : Except String (List Int) :=
  if valueShape.length = 5 ∧ filterShape.length = 5 ∧
     outputShape.length = 5 ∧ strides.length = 5 then
    if strides.getD 0 0 = 1 ∧ strides.getD 4 0 = 1 ∧
       1 ≤ strides.getD 1 0 ∧ 1 ≤ strides.getD 2 0 ∧ 1 ≤ strides.getD 3 0 ∧
       1 ≤ filterShape.getD 0 0 ∧ 1 ≤ filterShape.getD 1 0 ∧
       1 ≤ filterShape.getD 2 0 ∧
       valueShape.all (fun d => 1 ≤ d) ∧ outputShape.all (fun d => 1 ≤ d) ∧
       outputShape.getD 0 0 = valueShape.getD 0 0 ∧
       filterShape.getD 3 0 = outputShape.getD 4 0 ∧
       filterShape.getD 4 0 = valueShape.getD 4 0 ∧
       deconvDimOk padding (valueShape.getD 1 0) (outputShape.getD 1 0)
         (filterShape.getD 0 0) (strides.getD 1 0) ∧
       deconvDimOk padding (valueShape.getD 2 0) (outputShape.getD 2 0)
         (filterShape.getD 1 0) (strides.getD 2 0) ∧
       deconvDimOk padding (valueShape.getD 3 0) (outputShape.getD 3 0)
         (filterShape.getD 2 0) (strides.getD 3 0) then
      .ok outputShape
    else .error "conv3d_transpose: incompatible shapes"
  else .error "conv3d_transpose: shapes must be rank 5"

/-- Boolean success test for `Except`. -/
def exceptOk {α : Type} (e : Except String α) : Bool :=
  match e with
  | .ok _ => true
  | .error _ => false

/-- The configuration record built by `ConvTransLayer.__init__`:
padding (validated), output channel count, flattened kernel size and stride,
bias flag, the initializers dict and the regularizers dict, and the layer
name. -/
structure ConvTransLayer (I R : Type) where
  padding : String
  n_output_chns : Int
  kernel_size : List Int
  stride : List Int
  with_bias : Bool
  initializers_w : InitValue I
  initializers_b : InitValue I
  regularizers_w : Option R
  regularizers_b : Option R
  name : String
deriving DecidableEq, Repr

/-- `ConvTransLayer.__init__`: validates the padding via
`look_up_operations(padding.upper(), SUPPORTED_PADDING)` (the only check that
can fail), flattens kernel size and stride with `np.asarray(...).flatten()`,
and stores everything else unchecked.  A `none` initializer is replaced by the
corresponding default. -/
def ConvTransLayer.init {I R : Type} (n_output_chns : Int)
    (kernel_size stride : NpValue) (padding : String) (with_bias : Bool)
    (w_initializer : Option (InitValue I)) (w_regularizer : Option R)
    (b_initializer : Option (InitValue I)) (b_regularizer : Option R)
    (name : String) : Except String (ConvTransLayer I R) :=
  match look_up_operations (pyUpper padding) SUPPORTED_PADDING with
  | .error e => .error e
  | .ok p =>
      .ok { padding := p
            n_output_chns := n_output_chns
            kernel_size := kernel_size.flatten
            stride := stride.flatten
            with_bias := with_bias
            initializers_w := w_initializer.getD .default_w
            initializers_b := b_initializer.getD .default_b
            regularizers_w := w_regularizer
            regularizers_b := b_regularizer
            name := name }

/-- `ConvTransLayer.layer_op`: reads the input channel count from the last
dimension, infers the spatial rank, builds the full kernel shape and stride
vector, creates the weight variable, requests an output shape equal to the
input shape with only the channel dimension replaced by `n_output_chns`,
applies `tf.nn.conv3d_transpose`, and finally (only when `with_bias`) creates
the bias variable of shape `[n_output_chns]` and adds it.  Returns the list of
variables created together with the output tensor. -/
def ConvTransLayer.layer_op {I R : Type} (layer : ConvTransLayer I R)
    (input_tensor : Tensor R) :
    Except String (List (TFVariable I R) × Tensor R) :=
  match input_tensor.shape.getLast? with
  | none => .error "list index out of range"
  | some n_input_chns =>
    match infer_spatial_rank input_tensor.shape with
    | .error e => .error e
    | .ok spatial_rank =>
      match w_full_size layer.kernel_size spatial_rank
              layer.n_output_chns n_input_chns with
      | .error e => .error e
      | .ok wsize =>
        match get_variable "w" wsize layer.initializers_w
                layer.regularizers_w with
        | .error e => .error e
        | .ok conv_kernel =>
          let output_shape := input_tensor.shape.set
            (input_tensor.shape.length - 1) layer.n_output_chns
          let strides : List Int :=
            1 :: (full_stride layer.stride spatial_rank ++ [1])
          match conv3d_transpose input_tensor.shape conv_kernel.shape
                  output_shape strides layer.padding with
          | .error e => .error e
          | .ok out_shape =>
            let output_tensor : Tensor R :=
              ⟨out_shape, .convTrans conv_kernel.shape output_shape strides
                 layer.padding input_tensor.expr⟩
            if layer.with_bias = false then .ok ([conv_kernel], output_tensor)
            else
              match get_variable "b" [layer.n_output_chns]
                      layer.initializers_b layer.regularizers_b with
              | .error e => .error e
              | .ok bias_term =>
                .ok ([conv_kernel, bias_term],
                     ⟨output_tensor.shape,
                      .biasAdd output_tensor.expr [layer.n_output_chns]⟩)

/-- `ConvTransLayer.__init__` followed by calling the layer on a tensor. -/
def ConvTransLayer.applied {I R : Type} (n_output_chns : Int)
    (kernel_size stride : NpValue) (padding : String) (with_bias : Bool)
    (w_initializer : Option (InitValue I)) (w_regularizer : Option R)
    (b_initializer : Option (InitValue I)) (b_regularizer : Option R)
    (name : String) (input_tensor : Tensor R) :
    Except String (List (TFVariable I R) × Tensor R) :=
  match ConvTransLayer.init n_output_chns kernel_size stride padding with_bias
          w_initializer w_regularizer b_initializer b_regularizer name with
  | .error e => .error e
  | .ok layer => layer.layer_op input_tensor

/-- Modelled from the spec: `BNLayer` (`layer/bn.py`, not under `src/`) is the
normalization stage.  It consumes a training/inference mode flag, receives a
regularizer and the moving decay and epsilon, and produces a shape-preserving
output. -/
def BNLayer.layer_op {R : Type} (regularizer : Option R) (moving_decay eps : ℚ)
    (t : Tensor R) (is_training : Option Bool) : Tensor R :=
  ⟨t.shape, .batchNorm regularizer moving_decay eps is_training t.expr⟩

/-- Modelled from the spec: `ActiLayer` (`layer/activation.py`, not under
`src/`) is the activation stage, selected by function name; it receives a
regularizer and is shape-preserving. -/
def ActiLayer.layer_op {R : Type} (func : String) (regularizer : Option R)
    (t : Tensor R) : Tensor R :=
  ⟨t.shape, .acti func regularizer t.expr⟩

/-- Modelled from the spec: the dropout stage, an `ActiLayer` constructed with
`func='dropout'` and called with a keep-probability; shape-preserving. -/
def ActiLayer.dropout_op {R : Type} (keep_prob : ℚ) (t : Tensor R) :
    Tensor R :=
  ⟨t.shape, .dropout keep_prob t.expr⟩

/-- The optional batch-normalization stage of the composite layer: present
exactly when `with_bn` is set. -/
def bnStage {R : Type} (with_bn : Bool) (regularizer : Option R)
    (moving_decay eps : ℚ) (is_training : Option Bool) (t : Tensor R) :
    Tensor R :=
  if with_bn then BNLayer.layer_op regularizer moving_decay eps t is_training
  else t

/-- The optional activation stage of the composite layer: present exactly when
an activation function name is configured. -/
def actiStage {R : Type} (acti_func : Option String) (regularizer : Option R)
    (t : Tensor R) : Tensor R :=
  match acti_func with
  | some f => ActiLayer.layer_op f regularizer t
  | none => t

/-- The optional dropout stage of the composite layer: present exactly when a
keep-probability is passed at call time. -/
def dropoutStage {R : Type} (keep_prob : Option ℚ) (t : Tensor R) : Tensor R :=
  match keep_prob with
  | some p => ActiLayer.dropout_op p t
  | none => t

/-- The configuration record built by `ConvolutionalTransposeLayer.__init__`.
Note that the padding string is stored as given, without validation. -/
structure ConvolutionalTransposeLayer (I R : Type) where
  acti_func : Option String
  with_bn : Bool
  layer_name : String
  n_output_chns : Int
  kernel_size : NpValue
  stride : NpValue
  padding : String
  with_bias : Bool
  moving_decay : ℚ
  eps : ℚ
  initializers_w : InitValue I
  initializers_b : InitValue I
  regularizers_w : Option R
  regularizers_b : Option R
deriving DecidableEq, Repr

/-- The record constructed by `ConvolutionalTransposeLayer.__init__`: it
builds the layer name from the enabled optional stages and stores every
argument (the padding string included) without any validation. -/
def ConvolutionalTransposeLayer.make {I R : Type} (n_output_chns : Int)
    (kernel_size stride : NpValue) (padding : String)
    (with_bias with_bn : Bool) (acti_func : Option String)
    (w_initializer : Option (InitValue I)) (w_regularizer : Option R)
    (b_initializer : Option (InitValue I)) (b_regularizer : Option R)
    (moving_decay eps : ℚ) (name : String) :
    ConvolutionalTransposeLayer I R :=
  { acti_func := acti_func
    with_bn := with_bn
    layer_name := name ++ (if with_bn then "_bn" else "") ++
      (match acti_func with
       | some f => "_" ++ f
       | none => "")
    n_output_chns := n_output_chns
    kernel_size := kernel_size
    stride := stride
    padding := padding
    with_bias := with_bias
    moving_decay := moving_decay
    eps := eps
    initializers_w := w_initializer.getD .default_w
    initializers_b := b_initializer.getD .default_b
    regularizers_w := w_regularizer
    regularizers_b := b_regularizer }

/-- `ConvolutionalTransposeLayer.__init__` as a fallible constructor (the
Python constructor raises no exception: it always returns the record). -/
def ConvolutionalTransposeLayer.init {I R : Type} (n_output_chns : Int)
    (kernel_size stride : NpValue) (padding : String)
    (with_bias with_bn : Bool) (acti_func : Option String)
    (w_initializer : Option (InitValue I)) (w_regularizer : Option R)
    (b_initializer : Option (InitValue I)) (b_regularizer : Option R)
    (moving_decay eps : ℚ) (name : String) :
    Except String (ConvolutionalTransposeLayer I R) :=
  .ok (ConvolutionalTransposeLayer.make n_output_chns kernel_size stride
        padding with_bias with_bn acti_func w_initializer w_regularizer
        b_initializer b_regularizer moving_decay eps name)

/-- `ConvolutionalTransposeLayer.layer_op`: constructs the primitive
`ConvTransLayer` from the stored configuration (this is where an unsupported
padding string first fails), applies it, then applies the optional batch
normalization (passing the weight regularizer), the optional activation
(passing the weight regularizer), and the optional dropout, in that order. -/
def ConvolutionalTransposeLayer.layer_op {I R : Type}
    (layer : ConvolutionalTransposeLayer I R) (input_tensor : Tensor R)
    (is_training : Option Bool) (keep_prob : Option ℚ) :
    Except String (List (TFVariable I R) × Tensor R) :=
  match ConvTransLayer.init layer.n_output_chns layer.kernel_size layer.stride
          layer.padding layer.with_bias (some layer.initializers_w)
          layer.regularizers_w (some layer.initializers_b)
          layer.regularizers_b "conv_trans_" with
  | .error e => .error e
  | .ok conv_trans_layer =>
    match conv_trans_layer.layer_op input_tensor with
    | .error e => .error e
    | .ok (vars, t0) =>
      let t1 : Tensor R :=
        if layer.with_bn then
          BNLayer.layer_op layer.regularizers_w layer.moving_decay layer.eps
            t0 is_training
        else t0
      let t2 : Tensor R :=
        match layer.acti_func with
        | some f => ActiLayer.layer_op f layer.regularizers_w t1
        | none => t1
      let t3 : Tensor R :=
        match keep_prob with
        | some p => ActiLayer.dropout_op p t2
        | none => t2
      .ok (vars, t3)

/-- The primitive transposed-convolution layer alone, constructed from the
composite layer's stored configuration and applied to the input. -/
def primitiveAlone {I R : Type} (layer : ConvolutionalTransposeLayer I R)
    (input_tensor : Tensor R) :
    Except String (List (TFVariable I R) × Tensor R) :=
  ConvTransLayer.applied layer.n_output_chns layer.kernel_size layer.stride
    layer.padding layer.with_bias (some layer.initializers_w)
    layer.regularizers_w (some layer.initializers_b) layer.regularizers_b
    "conv_trans_" input_tensor

deriving instance DecidableEq for Except

/-- A concrete rank-5 input tensor (shape `[1, 8, 8, 8, 4]`), the spec's
example input. -/
def sampleInput : Tensor Nat := ⟨[1, 8, 8, 8, 4], .input [1, 8, 8, 8, 4]⟩

/-- A concrete primitive layer configuration: 16 output channels, kernel 3,
stride 1, SAME padding, no bias. -/
def sampleLayer : ConvTransLayer Nat Nat :=
  { padding := "SAME", n_output_chns := 16, kernel_size := [3], stride := [1],
    with_bias := false, initializers_w := .default_w,
    initializers_b := .default_b, regularizers_w := none,
    regularizers_b := none, name := "conv" }

/-- The variables created by `sampleLayer` on `sampleInput`. -/
def sampleVars : List (TFVariable Nat Nat) :=
  [⟨"w", [3, 3, 3, 16, 4], .default_w, none⟩]

/-- The output of `sampleLayer` on `sampleInput`. -/
def sampleOut : Tensor Nat :=
  ⟨[1, 8, 8, 8, 16],
   .convTrans [3, 3, 3, 16, 4] [1, 8, 8, 8, 16] [1, 1, 1, 1, 1] "SAME"
     (.input [1, 8, 8, 8, 4])⟩

/-- `sampleLayer` with the bias term enabled. -/
def sampleLayerB : ConvTransLayer Nat Nat :=
  { padding := "SAME", n_output_chns := 16, kernel_size := [3], stride := [1],
    with_bias := true, initializers_w := .default_w,
    initializers_b := .default_b, regularizers_w := none,
    regularizers_b := none, name := "conv" }

/-- The variables created by `sampleLayerB` on `sampleInput`. -/
def sampleVarsB : List (TFVariable Nat Nat) :=
  [⟨"w", [3, 3, 3, 16, 4], .default_w, none⟩,
   ⟨"b", [16], .default_b, none⟩]

/-- The output of `sampleLayerB` on `sampleInput`. -/
def sampleOutB : Tensor Nat :=
  ⟨[1, 8, 8, 8, 16],
   .biasAdd (.convTrans [3, 3, 3, 16, 4] [1, 8, 8, 8, 16] [1, 1, 1, 1, 1]
     "SAME" (.input [1, 8, 8, 8, 4])) [16]⟩

/-- A composite layer with every optional stage disabled. -/
def cLayerOff : ConvolutionalTransposeLayer Nat Nat :=
  ConvolutionalTransposeLayer.make 16 (.int 3) (.int 1) "SAME" false false
    none none none none none (9/10) (1/100000) "ct"

/-- A composite layer with bias, batch normalization and activation enabled
and distinct weight/bias regularizers. -/
def cLayerFull : ConvolutionalTransposeLayer Nat Nat :=
  ConvolutionalTransposeLayer.make 16 (.int 3) (.int 1) "SAME" true true
    (some "relu") none (some 7) none (some 9) 1 1 "ct"

/-- The variables created by `cLayerFull` on `sampleInput`. -/
def cVarsFull : List (TFVariable Nat Nat) :=
  [⟨"w", [3, 3, 3, 16, 4], .default_w, some 7⟩,
   ⟨"b", [16], .default_b, some 9⟩]

/-- The output of `cLayerFull` on `sampleInput` with dropout keep
probability 1. -/
def cOutFull : Tensor Nat :=
  ⟨[1, 8, 8, 8, 16],
   .dropout 1 (.acti "relu" (some 7) (.batchNorm (some 7) 1 1 (some true)
     (.biasAdd (.convTrans [3, 3, 3, 16, 4] [1, 8, 8, 8, 16] [1, 1, 1, 1, 1]
        "SAME" (.input [1, 8, 8, 8, 4])) [16])))⟩

/-!
Helper lemmas: list facts and inversion principles for the embedded
operations, used by several of the claim theorems below.
-/

lemma flatten_replicate_singleton {α : Type} (n : Nat) (a : α) :
    (List.replicate n [a]).flatten = List.replicate n a := by
  induction n with
  | zero => rfl
  | succ m ih => simp [List.replicate_succ, ih]

lemma list_length_five {α : Type} (l : List α) (h : l.length = 5) :
    ∃ a b c d e : α, l = [a, b, c, d, e] := by
  rcases l with _ | ⟨a, l⟩; · simp at h
  rcases l with _ | ⟨b, l⟩; · simp at h
  rcases l with _ | ⟨c, l⟩; · simp at h
  rcases l with _ | ⟨d, l⟩; · simp at h
  rcases l with _ | ⟨e, l⟩; · simp at h
  rcases l with _ | ⟨f, l⟩
  · exact ⟨a, b, c, d, e, rfl⟩
  · simp at h

lemma conv3d_transpose_ok {v f o s : List Int} {p : String} {r : List Int}
    (h : conv3d_transpose v f o s p = .ok r) :
    r = o ∧ v.length = 5 ∧ f.length = 5 ∧ o.length = 5 ∧ s.length = 5 := by
  unfold conv3d_transpose at h
  split at h
  · split at h
    · injection h with h'
      subst h'
      tauto
    · injection h
  · injection h

lemma layer_op_ok_inv {I R : Type} (l : ConvTransLayer I R) (t : Tensor R)
    (vars : List (TFVariable I R)) (out : Tensor R)
    (h : l.layer_op t = .ok (vars, out)) :
    ∃ a d1 d2 d3 c k s : Int,
      t.shape = [a, d1, d2, d3, c] ∧
      l.kernel_size = [k] ∧ l.stride = [s] ∧
      out.shape = [a, d1, d2, d3, l.n_output_chns] ∧
      out.expr = (if l.with_bias then
          GraphExpr.biasAdd (GraphExpr.convTrans [k, k, k, l.n_output_chns, c]
              [a, d1, d2, d3, l.n_output_chns] [1, s, s, s, 1] l.padding t.expr)
            [l.n_output_chns]
        else
          GraphExpr.convTrans [k, k, k, l.n_output_chns, c]
            [a, d1, d2, d3, l.n_output_chns] [1, s, s, s, 1] l.padding t.expr) ∧
      vars = (if l.with_bias then
          [⟨"w", [k, k, k, l.n_output_chns, c], l.initializers_w, l.regularizers_w⟩,
           ⟨"b", [l.n_output_chns], l.initializers_b, l.regularizers_b⟩]
        else
          [⟨"w", [k, k, k, l.n_output_chns, c], l.initializers_w, l.regularizers_w⟩]) := by
  obtain ⟨tsh, tex⟩ := t
  unfold ConvTransLayer.layer_op at h
  split at h
  · injection h
  next nin hgl =>
  split at h
  · injection h
  next sr hsr =>
  split at h
  · injection h
  next wsize hws =>
  split at h
  · injection h
  next ck hck =>
  split at h
  next hbias =>
    dsimp only at h
    split at h
    · injection h
    next osh hconv =>
      injection h with h'
      obtain ⟨hvars, hout⟩ : [ck] = vars ∧ _ = out := Prod.mk.injEq .. ▸ h'
      subst hvars
      subst hout
      obtain ⟨hosh, hlv, hlf, hlo, hls⟩ := conv3d_transpose_ok hconv
      simp only [Tensor.mk.injEq] at *
      obtain ⟨a, d1, d2, d3, c, hts⟩ := list_length_five _ hlv
      subst hts
      rw [show ([a, d1, d2, d3, c] : List Int).getLast? = some c from rfl] at hgl
      injection hgl with hnin
      subst hnin
      unfold infer_spatial_rank at hsr
      simp at hsr
      subst hsr
      unfold w_full_size at hws
      split at hws
      next ksz kk hk =>
        injection hws with hws
        subst hws
        unfold get_variable at hck
        split at hck
        · injection hck with hck
          subst hck
          simp only [List.length_cons, List.length_append, List.length_nil] at hls
          unfold full_stride at hls
          simp only [List.length_flatten, List.map_replicate, List.length_replicate,
            List.sum_replicate, smul_eq_mul] at hls
          have hst1 : l.stride.length = 1 := by omega
          obtain ⟨s0, hst⟩ := List.length_eq_one.mp hst1
          refine ⟨a, d1, d2, d3, c, kk, s0, rfl, hk, hst, ?_, ?_, ?_⟩
          · rw [hosh]; simp
          · rw [hst]; simp [hbias, full_stride]
          · simp [hbias]
        · injection hck
      next hne =>
        injection hws
  next hbias =>
    simp only [Bool.not_eq_false] at hbias
    dsimp only at h
    split at h
    · injection h
    next osh hconv =>
      split at h
      · injection h
      next bt hbt =>
        injection h with h'
        obtain ⟨hvars, hout⟩ : [ck, bt] = vars ∧ _ = out := Prod.mk.injEq .. ▸ h'
        subst hvars
        subst hout
        obtain ⟨hosh, hlv, hlf, hlo, hls⟩ := conv3d_transpose_ok hconv
        simp only [Tensor.mk.injEq] at *
        obtain ⟨a, d1, d2, d3, c, hts⟩ := list_length_five _ hlv
        subst hts
        rw [show ([a, d1, d2, d3, c] : List Int).getLast? = some c from rfl] at hgl
        injection hgl with hnin
        subst hnin
        unfold infer_spatial_rank at hsr
        simp at hsr
        subst hsr
        unfold w_full_size at hws
        split at hws
        next ksz kk hk =>
          injection hws with hws
          subst hws
          unfold get_variable at hck
          split at hck
          · injection hck with hck
            subst hck
            unfold get_variable at hbt
            split at hbt
            · injection hbt with hbt
              subst hbt
              simp only [List.length_cons, List.length_append, List.length_nil] at hls
              unfold full_stride at hls
              simp only [List.length_flatten, List.map_replicate, List.length_replicate,
                List.sum_replicate, smul_eq_mul] at hls
              have hst1 : l.stride.length = 1 := by omega
              obtain ⟨s0, hst⟩ := List.length_eq_one.mp hst1
              refine ⟨a, d1, d2, d3, c, kk, s0, rfl, hk, hst, ?_, ?_, ?_⟩
              · rw [hosh]; simp
              · rw [hst]; simp [hbias, full_stride]
              · simp [hbias]
            · injection hbt
          · injection hck
        next hne =>
          injection hws

lemma ConvTransLayer.init_ok_inv {I R : Type} {n : Int} {ks st : NpValue}
    {pad : String} {wb : Bool} {wi bi : Option (InitValue I)} {wr br : Option R}
    {nm : String} {l : ConvTransLayer I R}
    (h : ConvTransLayer.init n ks st pad wb wi wr bi br nm = .ok l) :
    l = { padding := pyUpper pad, n_output_chns := n,
          kernel_size := ks.flatten, stride := st.flatten, with_bias := wb,
          initializers_w := wi.getD .default_w,
          initializers_b := bi.getD .default_b,
          regularizers_w := wr, regularizers_b := br, name := nm } := by
  by_cases hmem : pyUpper pad ∈ SUPPORTED_PADDING
  · simp [ConvTransLayer.init, look_up_operations, hmem] at h
    exact h.symm
  · simp [ConvTransLayer.init, look_up_operations, hmem] at h

lemma ConvTransLayer.init_err {I R : Type} {n : Int} {ks st : NpValue}
    {pad : String} {wb : Bool} {wi bi : Option (InitValue I)} {wr br : Option R}
    {nm : String} (hmem : pyUpper pad ∉ SUPPORTED_PADDING) :
    ConvTransLayer.init (I := I) (R := R) n ks st pad wb wi wr bi br nm =
      .error "unsupported option" := by
  simp [ConvTransLayer.init, look_up_operations, hmem]

lemma composite_layer_op_eq {I R : Type} (l : ConvolutionalTransposeLayer I R)
    (t : Tensor R) (it : Option Bool) (kp : Option ℚ) :
    l.layer_op t it kp =
      Except.map (fun p => (p.1,
        dropoutStage kp (actiStage l.acti_func l.regularizers_w
          (bnStage l.with_bn l.regularizers_w l.moving_decay l.eps it p.2))))
        (primitiveAlone l t) := by
  unfold ConvolutionalTransposeLayer.layer_op primitiveAlone
    ConvTransLayer.applied
  cases hinit : ConvTransLayer.init (I := I) (R := R) l.n_output_chns
      l.kernel_size l.stride l.padding l.with_bias (some l.initializers_w)
      l.regularizers_w (some l.initializers_b) l.regularizers_b
      "conv_trans_" with
  | error e => rfl
  | ok layer =>
    cases hop : layer.layer_op t with
    | error e => simp [hop, Except.map]
    | ok p =>
      obtain ⟨vars, t0⟩ := p
      simp [hop, Except.map, bnStage, actiStage, dropoutStage]

/-- Claim C1.  The spec's example asserts that input shape `[1, 8, 8, 8, 4]`
with `n_output_chns = 16`, `kernel_size = 3`, `stride = 2`, SAME padding
produces output shape `[1, 16, 16, 16, 16]` per standard deconvolution
upsampling.  The code instead requests an output shape equal to the input
shape with only the channel dimension replaced (the spatial upsampling line is
commented out), so the stride-2 call violates the framework's deconvolution
shape relation and fails; with stride 1 the layer returns spatial dimensions
equal to the input's, never upsampled. -/
theorem c1_deconv_example_code_bug :
    exceptOk (ConvTransLayer.applied (I := Nat) (R := Nat) 16 (.int 3) (.int 2)
      "SAME" false none none none none "conv" sampleInput) = false ∧
    Except.map (fun p => p.2.shape)
      (ConvTransLayer.applied (I := Nat) (R := Nat) 16 (.int 3) (.int 1)
        "SAME" false none none none none "conv" sampleInput) =
      .ok [1, 8, 8, 8, 16] := by
  constructor
  · decide
  · decide

/-- Claim C2.  For every configuration and every input tensor on which the
primitive layer's call succeeds, the returned tensor's last (channel)
dimension equals the configured `n_output_chns` and its rank equals the
input's rank. -/
theorem c2_output_channels_and_rank {I R : Type} (l : ConvTransLayer I R)
    (t : Tensor R) (vars : List (TFVariable I R)) (out : Tensor R)
    (h : l.layer_op t = .ok (vars, out)) :
    out.shape.getLast? = some l.n_output_chns ∧
    out.shape.length = t.shape.length := by
  obtain ⟨a, d1, d2, d3, c, k, s, hts, _, _, hosh, _, _⟩ :=
    layer_op_ok_inv l t vars out h
  rw [hts, hosh]
  simp

/-- Claim C2, witness: the theorem applied at `sampleLayer` on
`sampleInput`. -/
theorem c2_output_channels_and_rank_witness :
    sampleLayer.layer_op sampleInput = .ok (sampleVars, sampleOut) ∧
    (sampleOut.shape.getLast? = some sampleLayer.n_output_chns ∧
     sampleOut.shape.length = sampleInput.shape.length) :=
  ⟨by decide, c2_output_channels_and_rank sampleLayer sampleInput sampleVars
    sampleOut (by decide)⟩

/-- Claim C3, counterexample: constructing the composite layer with the
unsupported padding string "MIRROR" succeeds, refuting the claim that for any
string outside the supported set, construction of either layer fails. -/
theorem c3_composite_accepts_unsupported_padding :
    exceptOk (ConvolutionalTransposeLayer.init (I := Nat) (R := Nat) 16
      (.int 3) (.int 1) "MIRROR" false true none none none none none
      (9/10) (1/100000) "conv_trans") = true := by decide

/-- Claim C3, amended.  The primitive layer's construction succeeds exactly
when the uppercased padding string is in the supported set (so lowercase
variants are also accepted), and fails at construction otherwise; the
composite layer's construction succeeds for every padding string, and an
unsupported padding makes the composite fail only when it is called. -/
theorem c3_padding_validation_amended {I R : Type} (s : String) (n : Int)
    (ks st : NpValue) (wb wbn : Bool) (af : Option String)
    (wi bi : Option (InitValue I)) (wr br : Option R) (md ep : ℚ)
    (nm : String) :
    (pyUpper s ∈ SUPPORTED_PADDING →
      exceptOk (ConvTransLayer.init (I := I) (R := R) n ks st s wb wi wr bi br
        nm) = true) ∧
    (pyUpper s ∉ SUPPORTED_PADDING →
      exceptOk (ConvTransLayer.init (I := I) (R := R) n ks st s wb wi wr bi br
        nm) = false) ∧
    exceptOk (ConvolutionalTransposeLayer.init (I := I) (R := R) n ks st s wb
      wbn af wi wr bi br md ep nm) = true ∧
    (pyUpper s ∉ SUPPORTED_PADDING →
      ∀ (t : Tensor R) (it : Option Bool) (kp : Option ℚ),
        exceptOk ((ConvolutionalTransposeLayer.make (I := I) (R := R) n ks st s
          wb wbn af wi wr bi br md ep nm).layer_op t it kp) = false) := by
  refine ⟨?_, ?_, rfl, ?_⟩
  · intro hmem
    simp [ConvTransLayer.init, look_up_operations, hmem, exceptOk]
  · intro hmem
    rw [ConvTransLayer.init_err hmem]
    rfl
  · intro hmem t it kp
    unfold ConvolutionalTransposeLayer.layer_op
    simp only [ConvolutionalTransposeLayer.make]
    rw [ConvTransLayer.init_err hmem]
    rfl

/-- Claim C3, witness: the amended theorem applied at the lowercase supported
string "valid" and at the unsupported string "MIRROR". -/
theorem c3_padding_validation_amended_witness :
    exceptOk (ConvTransLayer.init (I := Nat) (R := Nat) 16 (.int 3) (.int 1)
      "valid" false none none none none "conv") = true ∧
    exceptOk (ConvTransLayer.init (I := Nat) (R := Nat) 16 (.int 3) (.int 1)
      "MIRROR" false none none none none "conv") = false ∧
    exceptOk ((ConvolutionalTransposeLayer.make (I := Nat) (R := Nat) 16
      (.int 3) (.int 1) "MIRROR" false true none none none none none
      (9/10) (1/100000) "ct").layer_op sampleInput none none) = false :=
  ⟨(c3_padding_validation_amended "valid" 16 (.int 3) (.int 1) false true none
      none none none none (9/10) (1/100000) "conv").1 (by decide),
   (c3_padding_validation_amended "MIRROR" 16 (.int 3) (.int 1) false true none
      none none none none (9/10) (1/100000) "conv").2.1 (by decide),
   (c3_padding_validation_amended "MIRROR" 16 (.int 3) (.int 1) false true none
      none none none none (9/10) (1/100000) "ct").2.2.2 (by decide)
     sampleInput none none⟩

/-- Claim C4, counterexample: a rank-4 input (2-D spatial) is rejected by the
primitive layer's call, refuting the claim that inputs of any spatial rank are
handled. -/
theorem c4_rank4_input_rejected :
    exceptOk (ConvTransLayer.applied (I := Nat) (R := Nat) 16 (.int 3) (.int 1)
      "SAME" false none none none none "conv"
      ⟨[2, 8, 8, 4], .input [2, 8, 8, 4]⟩) = false := by decide

/-- Claim C4, amended.  The primitive layer only handles rank-5 (3-D spatial)
inputs: whenever the call succeeds the input has rank 5 and the output keeps
the leading batch dimension and the number of spatial dimensions, with only
the channel count replaced by `n_output_chns`; every input whose rank is not 5
is rejected at call time. -/
theorem c4_spatial_rank_contract {I R : Type} (l : ConvTransLayer I R)
    (t : Tensor R) (vars : List (TFVariable I R)) (out : Tensor R)
    (h : l.layer_op t = .ok (vars, out)) :
    (t.shape.length = 5 ∧
     out.shape.length = t.shape.length ∧
     out.shape.head? = t.shape.head? ∧
     out.shape.getLast? = some l.n_output_chns) ∧
    ∀ (l' : ConvTransLayer I R) (t' : Tensor R), t'.shape.length ≠ 5 →
      exceptOk (l'.layer_op t') = false := by
  constructor
  · obtain ⟨a, d1, d2, d3, c, k, s, hts, _, _, hosh, _, _⟩ :=
      layer_op_ok_inv l t vars out h
    rw [hts, hosh]
    simp
  · intro l' t' hne
    cases heq : l'.layer_op t' with
    | error e => rfl
    | ok p =>
      obtain ⟨v, o⟩ := p
      obtain ⟨a, d1, d2, d3, c, k, s, hts, _⟩ := layer_op_ok_inv l' t' v o heq
      rw [hts] at hne
      simp at hne

/-- Claim C4, witness: the theorem applied at `sampleLayer` on the rank-5
`sampleInput`, with the rejection conjunct instantiated at a rank-4 input. -/
theorem c4_spatial_rank_contract_witness :
    (sampleInput.shape.length = 5 ∧
     sampleOut.shape.length = sampleInput.shape.length ∧
     sampleOut.shape.head? = sampleInput.shape.head? ∧
     sampleOut.shape.getLast? = some sampleLayer.n_output_chns) ∧
    exceptOk (sampleLayer.layer_op ⟨[2, 8, 8, 4], .input [2, 8, 8, 4]⟩) =
      false :=
  ⟨(c4_spatial_rank_contract sampleLayer sampleInput sampleVars sampleOut
      (by decide)).1,
   (c4_spatial_rank_contract sampleLayer sampleInput sampleVars sampleOut
      (by decide)).2 sampleLayer ⟨[2, 8, 8, 4], .input [2, 8, 8, 4]⟩
     (by decide)⟩

/-- Claim C5.  Calling the composite layer with normalization disabled, no
activation function and no keep-probability returns exactly the result of the
primitive transposed-convolution layer alone with the same configuration; and
in general the composite's output is the primitive's output with each of the
three optional stages applied exactly when its configuration value is
present. -/
theorem c5_stage_toggling {I R : Type} (l : ConvolutionalTransposeLayer I R)
    (t : Tensor R) (it : Option Bool)
    (hbn : l.with_bn = false) (hac : l.acti_func = none) :
    (l.layer_op t it none = primitiveAlone l t) ∧
    ∀ (l' : ConvolutionalTransposeLayer I R) (t' : Tensor R)
      (it' : Option Bool) (kp' : Option ℚ),
      l'.layer_op t' it' kp' =
        Except.map (fun p => (p.1,
          dropoutStage kp' (actiStage l'.acti_func l'.regularizers_w
            (bnStage l'.with_bn l'.regularizers_w l'.moving_decay l'.eps it'
              p.2))))
          (primitiveAlone l' t') := by
  refine ⟨?_, fun l' t' it' kp' => composite_layer_op_eq l' t' it' kp'⟩
  rw [composite_layer_op_eq l t it none]
  cases hp : primitiveAlone l t with
  | error e => rfl
  | ok p =>
    obtain ⟨v, t0⟩ := p
    simp [Except.map, hbn, hac, bnStage, actiStage, dropoutStage]

/-- Claim C5, witness: the theorem applied at the all-stages-disabled
composite `cLayerOff`, with the stage-factorization conjunct instantiated at
the fully enabled composite `cLayerFull`. -/
theorem c5_stage_toggling_witness :
    (cLayerOff.layer_op sampleInput none none =
      primitiveAlone cLayerOff sampleInput) ∧
    cLayerFull.layer_op sampleInput (some true) (some 1) =
      Except.map (fun p => (p.1,
        dropoutStage (some 1) (actiStage cLayerFull.acti_func
          cLayerFull.regularizers_w (bnStage cLayerFull.with_bn
            cLayerFull.regularizers_w cLayerFull.moving_decay cLayerFull.eps
            (some true) p.2))))
        (primitiveAlone cLayerFull sampleInput) :=
  ⟨(c5_stage_toggling cLayerOff sampleInput none rfl rfl).1,
   (c5_stage_toggling cLayerOff sampleInput none rfl rfl).2 cLayerFull
     sampleInput (some true) (some 1)⟩

/-- Claim C6.  When a layer is constructed from a scalar kernel size `k` and a
scalar stride `s`, the effective per-axis kernel sizes used to build the
weight shape are `k` repeated over every spatial axis (for any spatial rank
`N`), the effective per-axis strides are `s` repeated likewise, and on a
successful call the created weight variable and the strides recorded at the
transposed-convolution operator carry exactly those broadcast values. -/
theorem c6_scalar_broadcast {I R : Type} (k s n : Int) (pad : String)
    (wb : Bool) (wi bi : Option (InitValue I)) (wr br : Option R) (nm : String)
    (l : ConvTransLayer I R)
    (hinit : ConvTransLayer.init n (.int k) (.int s) pad wb wi wr bi br nm =
      .ok l) :
    (∀ (N : Nat) (c : Int),
       w_full_size l.kernel_size N l.n_output_chns c =
         .ok (List.replicate N k ++ [l.n_output_chns, c]) ∧
       full_stride l.stride N = List.replicate N s) ∧
    ∀ (t : Tensor R) (vars : List (TFVariable I R)) (out : Tensor R),
      l.layer_op t = .ok (vars, out) →
      ∃ c : Int, t.shape.getLast? = some c ∧
        vars.head? = some ⟨"w", List.replicate 3 k ++ [l.n_output_chns, c],
          l.initializers_w, l.regularizers_w⟩ ∧
        ∃ fs os, out.expr = (if l.with_bias then
            GraphExpr.biasAdd
              (GraphExpr.convTrans fs os [1, s, s, s, 1] l.padding t.expr)
              [l.n_output_chns]
          else
            GraphExpr.convTrans fs os [1, s, s, s, 1] l.padding t.expr) := by
  have hl := ConvTransLayer.init_ok_inv hinit
  have hk : l.kernel_size = [k] := by rw [hl]; rfl
  have hs : l.stride = [s] := by rw [hl]; rfl
  constructor
  · intro N c
    rw [hk, hs]
    exact ⟨rfl, flatten_replicate_singleton N s⟩
  · intro t vars out h
    obtain ⟨a, d1, d2, d3, c, k', s', hts, hk', hs', hosh, hexpr, hvars⟩ :=
      layer_op_ok_inv l t vars out h
    rw [hk] at hk'
    rw [hs] at hs'
    injection hk' with hkk
    injection hs' with hss
    subst hkk
    subst hss
    refine ⟨c, by rw [hts]; rfl, ?_, ?_⟩
    · rw [hvars]
      cases hwb : l.with_bias <;> simp [hwb]
    · exact ⟨[k, k, k, l.n_output_chns, c], [a, d1, d2, d3, l.n_output_chns],
        hexpr⟩

/-- Claim C6, witness: the theorem applied at the scalar configuration
`k = 3`, `s = 1` that builds `sampleLayer`, with the broadcast conjunct
instantiated at spatial rank 4 and the call conjunct at `sampleInput`. -/
theorem c6_scalar_broadcast_witness :
    (w_full_size sampleLayer.kernel_size 4 sampleLayer.n_output_chns 4 =
       .ok (List.replicate 4 3 ++ [sampleLayer.n_output_chns, 4]) ∧
     full_stride sampleLayer.stride 4 = List.replicate 4 1) ∧
    (∃ c : Int, sampleInput.shape.getLast? = some c ∧
      sampleVars.head? = some ⟨"w",
        List.replicate 3 3 ++ [sampleLayer.n_output_chns, c],
        sampleLayer.initializers_w, sampleLayer.regularizers_w⟩ ∧
      ∃ fs os, sampleOut.expr = (if sampleLayer.with_bias then
          GraphExpr.biasAdd
            (GraphExpr.convTrans fs os [1, 1, 1, 1, 1] sampleLayer.padding
              sampleInput.expr) [sampleLayer.n_output_chns]
        else
          GraphExpr.convTrans fs os [1, 1, 1, 1, 1] sampleLayer.padding
            sampleInput.expr)) :=
  ⟨(c6_scalar_broadcast 3 1 16 "SAME" false none none none none "conv"
      sampleLayer (by decide)).1 4 4,
   (c6_scalar_broadcast 3 1 16 "SAME" false none none none none "conv"
      sampleLayer (by decide)).2 sampleInput sampleVars sampleOut (by decide)⟩

/-- Claim C7.  Per-axis kernel-size or stride sequences whose length equals
the spatial rank are accepted at construction, but a kernel-size sequence of
length 3 makes the call crash in the `np.vstack` building the weight shape
(ragged rows), and a stride sequence of length 3 produces an 11-element
strides vector that the transposed-convolution operator rejects, even for the
identity strides `[1, 1, 1]`; the sequences' per-axis values are never used as
the claim states. -/
theorem c7_sequence_params_code_bug :
    exceptOk (ConvTransLayer.init (I := Nat) (R := Nat) 16 (.seq [2, 2, 2])
      (.int 1) "SAME" false none none none none "conv") = true ∧
    exceptOk (ConvTransLayer.applied (I := Nat) (R := Nat) 16 (.seq [2, 2, 2])
      (.int 1) "SAME" false none none none none "conv" sampleInput) = false ∧
    exceptOk (ConvTransLayer.applied (I := Nat) (R := Nat) 16 (.int 3)
      (.seq [1, 1, 1]) "SAME" false none none none none "conv" sampleInput) =
      false := by
  refine ⟨by decide, by decide, by decide⟩

/-- Claim C8.  With `with_bias = false` the primitive creates no bias
parameter and returns the bare transposed-convolution result; with
`with_bias = true` it creates exactly one additional parameter, named "b", of
shape `[n_output_chns]`, and returns the transposed-convolution result with
that per-output-channel bias added. -/
theorem c8_bias_parameter {I R : Type} (l : ConvTransLayer I R) (t : Tensor R)
    (vars : List (TFVariable I R)) (out : Tensor R)
    (h : l.layer_op t = .ok (vars, out)) :
    (l.with_bias = false →
      (∀ v ∈ vars, v.name ≠ "b") ∧
      ∃ fs os ss, out.expr = GraphExpr.convTrans fs os ss l.padding t.expr) ∧
    (l.with_bias = true →
      vars.map TFVariable.name = ["w", "b"] ∧
      (∃ v ∈ vars, v.name = "b" ∧ v.shape = [l.n_output_chns]) ∧
      ∃ fs os ss, out.expr =
        GraphExpr.biasAdd (GraphExpr.convTrans fs os ss l.padding t.expr)
          [l.n_output_chns]) := by
  obtain ⟨a, d1, d2, d3, c, k, s, hts, hk, hs, hosh, hexpr, hvars⟩ :=
    layer_op_ok_inv l t vars out h
  constructor
  · intro hwb
    rw [hwb] at hexpr hvars
    simp only [if_neg Bool.false_ne_true] at hexpr hvars
    refine ⟨?_, ⟨_, _, _, hexpr⟩⟩
    rw [hvars]
    simp
  · intro hwb
    rw [hwb] at hexpr hvars
    simp only [if_pos rfl] at hexpr hvars
    refine ⟨?_, ?_, ⟨_, _, _, hexpr⟩⟩
    · rw [hvars]; rfl
    · rw [hvars]
      exact ⟨_, List.mem_cons_of_mem _ (List.mem_singleton.mpr rfl), rfl, rfl⟩

/-- Claim C8, witness: the theorem applied at the bias-free `sampleLayer` and
at the bias-enabled `sampleLayerB`, both on `sampleInput`. -/
theorem c8_bias_parameter_witness :
    ((∀ v ∈ sampleVars, v.name ≠ "b") ∧
     ∃ fs os ss, sampleOut.expr =
       GraphExpr.convTrans fs os ss sampleLayer.padding sampleInput.expr) ∧
    (sampleVarsB.map TFVariable.name = ["w", "b"] ∧
     (∃ v ∈ sampleVarsB, v.name = "b" ∧
        v.shape = [sampleLayerB.n_output_chns]) ∧
     ∃ fs os ss, sampleOutB.expr =
       GraphExpr.biasAdd
         (GraphExpr.convTrans fs os ss sampleLayerB.padding sampleInput.expr)
         [sampleLayerB.n_output_chns]) :=
  ⟨(c8_bias_parameter sampleLayer sampleInput sampleVars sampleOut
      (by decide)).1 rfl,
   (c8_bias_parameter sampleLayerB sampleInput sampleVarsB sampleOutB
      (by decide)).2 rfl⟩

/-- Claim C9.  The primitive constructor validates only the padding argument:
for any valid padding it succeeds whatever the other configuration values
(including arbitrary channel counts, kernel sizes, strides, initializers and
regularizers), success depends only on the padding argument, and a bad
value such as stride 0 is accepted at construction and only fails when the
layer is called. -/
theorem c9_init_validates_only_padding {I R : Type} (p : String) (n n2 : Int)
    (ks ks2 st st2 : NpValue) (wb wb2 : Bool)
    (wi wi2 bi bi2 : Option (InitValue I)) (wr wr2 br br2 : Option R)
    (nm nm2 : String) :
    exceptOk (ConvTransLayer.init (I := I) (R := R) n ks st "SAME" wb wi wr bi
      br nm) = true ∧
    exceptOk (ConvTransLayer.init (I := I) (R := R) n ks st "VALID" wb wi wr bi
      br nm) = true ∧
    exceptOk (ConvTransLayer.init (I := I) (R := R) n ks st p wb wi wr bi br
      nm) =
      exceptOk (ConvTransLayer.init (I := I) (R := R) n2 ks2 st2 p wb2 wi2 wr2
        bi2 br2 nm2) ∧
    (exceptOk (ConvTransLayer.init (I := Nat) (R := Nat) 16 (.int 3) (.int 0)
      "SAME" false none none none none "conv") = true ∧
     exceptOk (ConvTransLayer.applied (I := Nat) (R := Nat) 16 (.int 3)
       (.int 0) "SAME" false none none none none "conv" sampleInput) =
       false) := by
  refine ⟨?_, ?_, ?_, by decide, by decide⟩
  · simp [ConvTransLayer.init, look_up_operations, exceptOk,
      show pyUpper "SAME" ∈ SUPPORTED_PADDING by decide]
  · simp [ConvTransLayer.init, look_up_operations, exceptOk,
      show pyUpper "VALID" ∈ SUPPORTED_PADDING by decide]
  · by_cases hmem : pyUpper p ∈ SUPPORTED_PADDING <;>
      simp [ConvTransLayer.init, look_up_operations, exceptOk, hmem]

/-- Claim C10.  In every successful invocation of the composite layer with
batch normalization and an activation function enabled, the batch-norm node
and the activation node of the resulting graph both carry the composite's
weight regularizer, while the bias regularizer reaches only the primitive
sub-layer: the created weight variable carries the weight regularizer and the
bias variable (when present) carries the bias regularizer. -/
theorem c10_regularizer_plumbing {I R : Type}
    (l : ConvolutionalTransposeLayer I R) (t : Tensor R) (it : Option Bool)
    (kp : Option ℚ) (f : String) (vars : List (TFVariable I R))
    (out : Tensor R) (hbn : l.with_bn = true) (hac : l.acti_func = some f)
    (h : l.layer_op t it kp = .ok (vars, out)) :
    (∃ e : GraphExpr R,
      out.expr = (match kp with
        | some pr => GraphExpr.dropout pr (GraphExpr.acti f l.regularizers_w
            (GraphExpr.batchNorm l.regularizers_w l.moving_decay l.eps it e))
        | none => GraphExpr.acti f l.regularizers_w
            (GraphExpr.batchNorm l.regularizers_w l.moving_decay l.eps it
              e))) ∧
    vars.map TFVariable.regularizer =
      (if l.with_bias then [l.regularizers_w, l.regularizers_b]
       else [l.regularizers_w]) := by
  rw [composite_layer_op_eq] at h
  cases hp : primitiveAlone l t with
  | error e =>
    rw [hp] at h
    simp [Except.map] at h
  | ok pr =>
    obtain ⟨v0, t0⟩ := pr
    rw [hp] at h
    simp only [Except.map] at h
    injection h with h'
    obtain ⟨hv, ho⟩ : v0 = vars ∧ _ = out := Prod.mk.injEq .. ▸ h'
    subst hv
    constructor
    · refine ⟨t0.expr, ?_⟩
      subst ho
      cases kp <;>
        simp [dropoutStage, actiStage, bnStage, hbn, hac,
          ActiLayer.layer_op, ActiLayer.dropout_op, BNLayer.layer_op]
    · unfold primitiveAlone ConvTransLayer.applied at hp
      split at hp
      · injection hp
      next layer hinit =>
        have hlay := ConvTransLayer.init_ok_inv hinit
        obtain ⟨a, d1, d2, d3, c, k, s, hts, hk, hs, hosh, hexpr, hvars⟩ :=
          layer_op_ok_inv layer t v0 t0 hp
        rw [hvars, hlay]
        cases hwb : l.with_bias <;> simp [hwb]

/-- Claim C10, witness: the theorem applied at the fully enabled composite
`cLayerFull` (weight regularizer 7, bias regularizer 9) on `sampleInput`. -/
theorem c10_regularizer_plumbing_witness :
    (∃ e : GraphExpr Nat,
      cOutFull.expr = GraphExpr.dropout 1 (GraphExpr.acti "relu"
        cLayerFull.regularizers_w (GraphExpr.batchNorm
          cLayerFull.regularizers_w cLayerFull.moving_decay cLayerFull.eps
          (some true) e))) ∧
    cVarsFull.map TFVariable.regularizer =
      (if cLayerFull.with_bias then
        [cLayerFull.regularizers_w, cLayerFull.regularizers_b]
       else [cLayerFull.regularizers_w]) :=
  c10_regularizer_plumbing cLayerFull sampleInput (some true) (some 1) "relu"
    cVarsFull cOutFull rfl rfl (by rfl)

end NiftyNet
